import Mathlib

/-!
Shallow embedding of the discord-mod-bot web routes:

  * `src/web/routes/verification.js` — the `POST /` handler that records a
    Discord↔Reddit account link in storage, and its authentication checks.
  * `src/web/routes/redditAuth.js` — the Reddit OAuth 2 client: the
    authorization-URI builder `authURI`, the token exchange
    `fetchRedditTokens`, the profile fetch `fetchRedditUserInfo`, and the
    `GET /callback` handler.

External effects (the HTTP response object, the MongoDB collection, the
provider's HTTP responses, the wall clock) are modelled as explicit inputs
and outputs: the provider's reply to each network call is an input record,
database behaviour is an input pair of results, the clock is an input
`now` in milliseconds, and each handler returns the final response state,
the final session, and the list of external calls it performed.
-/

namespace ModBot

/-- Reddit user info as built by `fetchRedditUserInfo`:
`{name, avatarURL, accountAge}`.  `accountAge` is a JS `Date`, modelled as
milliseconds since the epoch (`created_utc * 1000`).  `avatarURL` is
`data.subreddit && data.subreddit.icon_img`, which is absent whenever the
`subreddit` object or its `icon_img` field is. -/
structure UserInfo where
  name : String
  avatarURL : Option String
  accountAge : Nat
deriving DecidableEq, Repr

/-- The Discord identity stored in the session by the (external) Discord
OAuth flow.  The verification route reads `.id`; the display route also
reads `.username` and `.discriminator`. -/
structure DiscordUserInfo where
  id : String
  username : String
  discriminator : String
deriving DecidableEq, Repr

/-- The per-browser session object provided by the session middleware.
JS fields that may be `undefined` are `Option`s; `none` is `undefined`.
`redditTokenExpiresAt` is a JS `Date`, modelled as ms since the epoch. -/
structure Session where
  redditState : Option String := none
  redditAccessToken : Option String := none
  redditRefreshToken : Option String := none
  redditTokenExpiresAt : Option Nat := none
  redditUserInfo : Option UserInfo := none
  discordUserInfo : Option DiscordUserInfo := none
deriving DecidableEq, Repr

/-! ### The Node HTTP response object

`writeHead` throws `ERR_HTTP_HEADERS_SENT` when headers were already
written; `end` commits the response.  Only the behaviour the verification
handler exercises is modelled. -/

/-- Observable state of the Node `response` object. -/
structure Res where
  status : Option Nat := none
  body : Option String := none
  ended : Bool := false
deriving DecidableEq, Repr

/-- A record persisted in the `redditAccounts` collection. -/
structure LinkRecord where
  userID : String
  redditName : String
deriving DecidableEq, Repr

/-- A storage call performed by the handler, with its arguments. -/
inductive DbOp
  | findOne (userID redditName : String)
  | insertOne (userID redditName : String)
deriving DecidableEq, Repr

/-- The behaviour of the database for this request: what `findOne` and
`insertOne` would produce if awaited (`Except.error` = the promise
rejects, i.e. a storage fault). -/
structure DbBehavior where
  findOneResult : Except Unit (Option LinkRecord)
  insertOneResult : Except Unit Unit
deriving Repr

/-- Mutable state threaded through the verification handler: the response
object and the trace of storage calls made so far. -/
structure HState where
  res : Res := {}
  ops : List DbOp := []
deriving DecidableEq, Repr

/-- The handler monad: state (response + storage trace) with synchronous
JS exceptions.  An uncaught `Except.error` escaping the handler is an
unhandled rejection of the async route handler. -/
abbrev HandlerM (α : Type) := HState → Except Unit α × HState

instance : Monad HandlerM where
  pure a := fun s => (Except.ok a, s)
  bind x f := fun s =>
    match x s with
    | (Except.ok a, s1) => f a s1
    | (Except.error e, s1) => (Except.error e, s1)

instance : MonadExceptOf Unit HandlerM where
  throw e := fun s => (Except.error e, s)
  tryCatch x handle := fun s =>
    match x s with
    | (Except.ok a, s1) => (Except.ok a, s1)
    | (Except.error e, s1) => handle e s1

/-- Read the handler state. -/
def getS : HandlerM HState := fun s => (Except.ok s, s)

/-- Replace the handler state. -/
def setS (s : HState) : HandlerM Unit := fun _ => (Except.ok (), s)

/-- `response.writeHead(code)`: records the status, or throws
`ERR_HTTP_HEADERS_SENT` if a status was already written. -/
def writeHead (code : Nat) : HandlerM Unit := do
  let s ← getS
  if s.res.status.isSome then
    throw ()
  else
    setS { s with res := { s.res with status := some code } }

/-- `response.end(body)`: commits the response with the given body (an
implicit 200 status if none was written). -/
def endWith (b : String) : HandlerM Unit := do
  let s ← getS
  setS { s with res := { status := some (s.res.status.getD 200), body := some b, ended := true } }

/-- `response.end()`: commits the response with no body. -/
def endEmpty : HandlerM Unit := do
  let s ← getS
  setS { s with res := { s.res with status := some (s.res.status.getD 200), ended := true } }

/-- `await db.collection('redditAccounts').findOne({userID, redditName})`:
records the call, then returns the database's answer or throws on a
storage fault. -/
def dbFindOne (db : DbBehavior) (userID redditName : String) : HandlerM (Option LinkRecord) := do
  let s ← getS
  setS { s with ops := s.ops ++ [DbOp.findOne userID redditName] }
  match db.findOneResult with
  | Except.ok r => pure r
  | Except.error e => throw e

/-- `await db.collection('redditAccounts').insertOne({userID, redditName})`:
records the call, then returns or throws on a storage fault. -/
def dbInsertOne (db : DbBehavior) (userID redditName : String) : HandlerM Unit := do
  let s ← getS
  setS { s with ops := s.ops ++ [DbOp.insertOne userID redditName] }
  match db.insertOneResult with
  | Except.ok r => pure r
  | Except.error e => throw e

/-- The `POST /` handler of `src/web/routes/verification.js`, line for
line.  Note the source's `catch` block writes a 500 response but does not
`return`, so control falls through to the final `writeHead(201)`, which
then throws `ERR_HTTP_HEADERS_SENT` (uncaught). -/
def postVerifyBody (session : Session) (db : DbBehavior) : HandlerM Unit := do
  let reddit := session.redditUserInfo
  match reddit with
  | none =>
      writeHead 401
      endWith "Not logged in with Reddit"
      return
  | some reddit => do
  let discord := session.discordUserInfo
  match discord with
  | none =>
      writeHead 401
      endWith "Not logged in with Discord"
      return
  | some discord => do
  try
    let existingLink ← dbFindOne db discord.id reddit.name
    if existingLink.isSome then
      writeHead 201
      endEmpty
      return
    dbInsertOne db discord.id reddit.name
  catch _ =>
    writeHead 500
    endWith "An unexpected error occured. Get in touch with a bot developer."
  writeHead 201
  endEmpty

/-- Everything observable about one run of the `POST /` handler. -/
structure VerifyOutcome where
  /-- `Except.error ()` means a synchronous exception escaped the async
  handler (an unhandled rejection); the response below is still the one
  the client received. -/
  result : Except Unit Unit
  res : Res
  ops : List DbOp
deriving Repr

/-- Run the `POST /` handler on a fresh response object. -/
def postVerify (session : Session) (db : DbBehavior) : VerifyOutcome :=
  match postVerifyBody session db {} with
  | (r, s) => { result := r, res := s.res, ops := s.ops }

/-! ### `src/web/routes/redditAuth.js` — the Reddit OAuth client -/

/-- JS truthiness of a string-or-undefined value: `undefined` and the
empty string are falsy. -/
def truthy : Option String → Bool
  | none => false
  | some s => s != ""

/-- Characters `encodeURIComponent` leaves unescaped:
`A–Z a–z 0–9 - _ . ! ~ * ' ( )`. -/
def uriUnreserved (c : Char) : Bool :=
  c.isAlphanum || "-_.!~*()".contains c || c.toNat == 39

/-- Hex digit (uppercase) for a value below 16. -/
def hexDigit (n : Nat) : Char :=
  if n < 10 then Char.ofNat (48 + n) else Char.ofNat (55 + n)

/-- Percent-encoding of one byte, e.g. `37 ↦ "%25"`. -/
def percentByte (b : Nat) : String :=
  String.mk [Char.ofNat 37, hexDigit (b / 16), hexDigit (b % 16)]

/-- The UTF-8 bytes of one code point. -/
def utf8Bytes (c : Char) : List Nat :=
  let n := c.toNat
  if n < 128 then [n]
  else if n < 2048 then [192 + n / 64, 128 + n % 64]
  else if n < 65536 then [224 + n / 4096, 128 + n / 64 % 64, 128 + n % 64]
  else [240 + n / 262144, 128 + n / 4096 % 64, 128 + n / 64 % 64, 128 + n % 64]

/-- JS `encodeURIComponent`: unreserved characters pass through, every
other character is replaced by the percent-encoding of its UTF-8 bytes. -/
def encodeURIComponent (s : String) : String :=
  String.join (s.data.map fun c =>
    if uriUnreserved c then String.singleton c
    else String.join ((utf8Bytes c).map percentByte))

/-- `redditRedirectURI`: built from the configured web host. -/
def redditRedirectURI (host : String) : String :=
  host ++ "/auth/reddit/callback"

/-- `redditAuthURIBase`, parametrised by the configuration values it
interpolates (`config.reddit.clientID` and `config.web.host`). -/
def redditAuthURIBase (clientID host : String) : String :=
  "https://old.reddit.com/api/v1/authorize"
    ++ "?client_id=" ++ clientID
    ++ "&response_type=code"
    ++ "&redirect_uri=" ++ encodeURIComponent (redditRedirectURI host)
    ++ "&scope=identity"
    ++ "&duration=permanent"

/-- `authURI(state)`: the base URI with the URI-encoded state appended. -/
def authURI (clientID host state : String) : String :=
  redditAuthURIBase clientID host ++ "&state=" ++ encodeURIComponent state

/-- The provider's reply to the token-exchange POST: HTTP status and the
JSON body fields the code reads.  `error` is `Option` because the code
tests its presence (`if (data.error)`). -/
structure WireTokenResponse where
  status : Nat
  error : Option String := none
  access_token : String := ""
  refresh_token : String := ""
  token_type : String := ""
  scope : String := ""
  expires_in : Nat := 0
deriving DecidableEq, Repr

/-- The object `fetchRedditTokens` resolves with on success. -/
structure TokenSet where
  accessToken : String
  refreshToken : String
  tokenType : String
  scope : String
  expiresIn : Nat
deriving DecidableEq, Repr

/-- Why `fetchRedditTokens` threw. -/
inductive TokenExchangeError
  | nonSuccessStatus (status : Nat)
  | bodyError (e : String)
deriving DecidableEq, Repr

/-- `fetchRedditTokens`, as a function of the provider's reply: throws on
a non-200 status, then on a truthy `error` field in the body, and
otherwise maps the wire fields onto the result object. -/
def fetchRedditTokens (resp : WireTokenResponse) : Except TokenExchangeError TokenSet :=
  if resp.status ≠ 200 then
    Except.error (TokenExchangeError.nonSuccessStatus resp.status)
  else if truthy resp.error then
    Except.error (TokenExchangeError.bodyError (resp.error.getD ""))
  else
    Except.ok {
      accessToken := resp.access_token
      refreshToken := resp.refresh_token
      tokenType := resp.token_type
      scope := resp.scope
      expiresIn := resp.expires_in }

/-- The `subreddit` object inside the `/api/v1/me` reply; `icon_img` may
itself be absent. -/
structure SubredditObj where
  icon_img : Option String := none
deriving DecidableEq, Repr

/-- The provider's reply to the profile GET: HTTP status and the JSON
body fields the code reads. -/
structure WireMeResponse where
  status : Nat
  name : String := ""
  subreddit : Option SubredditObj := none
  created_utc : Nat := 0
deriving DecidableEq, Repr

/-- `fetchRedditUserInfo`, as a function of the provider's reply: throws
on a non-200 status, otherwise maps `name`, the optional nested avatar
field, and `created_utc` seconds to a `Date` (ms). -/
def fetchRedditUserInfo (resp : WireMeResponse) : Except Unit UserInfo :=
  if resp.status ≠ 200 then
    Except.error ()
  else
    Except.ok {
      name := resp.name
      avatarURL := resp.subreddit.bind fun sub => sub.icon_img
      accountAge := resp.created_utc * 1000 }

/-- The query string of the callback request; absent parameters are
`none` (JS `undefined`). -/
structure Query where
  error : Option String := none
  state : Option String := none
  code : Option String := none
deriving DecidableEq, Repr

/-- How the callback handler answered the browser. -/
inductive CbResponse
  | plainEnd (body : String)
  | redirect (location : String)
deriving DecidableEq, Repr

/-- A network call made by the callback handler, with its argument. -/
inductive CallbackEvent
  | tokenExchange (code : Option String)
  | profileFetch (accessToken : String)
deriving DecidableEq, Repr

/-- Everything observable about one run of the callback handler. -/
structure CallbackResult where
  session : Session
  response : CbResponse
  events : List CallbackEvent
deriving DecidableEq, Repr

/-- The `GET /callback` handler of `src/web/routes/redditAuth.js`, line
for line.  Its external inputs: the request query, the session, the
provider's reply to the token exchange (`tokenResp`), the provider's
reply to the profile fetch (`meResp`), and `Date.now()` in ms (`now`). -/
def getCallback (query : Query) (session : Session)
    (tokenResp : WireTokenResponse) (meResp : WireMeResponse) (now : Nat) :
    CallbackResult :=
  -- Check for errors or state mismatches
  if truthy query.error then
    { session := session, response := CbResponse.plainEnd "uh-oh", events := [] }
  else if query.state ≠ session.redditState then
    { session := session, response := CbResponse.plainEnd "uh-oh", events := [] }
  else
    -- Exchange the code for access/refresh tokens
    match fetchRedditTokens tokenResp with
    | Except.error _ =>
      { session := session
        response := CbResponse.plainEnd
          "Error requesting Reddit authorization. Please try again. Contact a developer if the error persists."
        events := [CallbackEvent.tokenExchange query.code] }
    | Except.ok tokens =>
      -- Store tokens and expiry in the user's session
      let session1 := { session with
        redditAccessToken := some tokens.accessToken
        redditRefreshToken := some tokens.refreshToken
        redditTokenExpiresAt := some (now + tokens.expiresIn * 1000) }
      -- Fetch Reddit user info and store in the user's session
      match fetchRedditUserInfo meResp with
      | Except.error _ =>
        { session := session1
          response := CbResponse.plainEnd
            "Error fetching your account details. Please try again. Contact a developer if the error persists."
          events := [CallbackEvent.tokenExchange query.code,
                     CallbackEvent.profileFetch tokens.accessToken] }
      | Except.ok info =>
        { session := { session1 with redditUserInfo := some info }
          response := CbResponse.redirect "/"
          events := [CallbackEvent.tokenExchange query.code,
                     CallbackEvent.profileFetch tokens.accessToken] }

/-! ### Auxiliary notions and concrete instances -/

/-- `needle` occurs contiguously inside `hay`. -/
def containsSubstr (hay needle : String) : Prop :=
  ∃ pre post : List Char, hay.data = pre ++ needle.data ++ post

/-- The Reddit identity used in concrete runs. -/
def uInfoAlice : UserInfo := { name := "alice", avatarURL := none, accountAge := 0 }

/-- The Discord identity used in concrete runs. -/
def dInfo42 : DiscordUserInfo := { id := "42", username := "user", discriminator := "0001" }

/-- A session holding both identities. -/
def sessionBoth : Session :=
  { redditUserInfo := some uInfoAlice, discordUserInfo := some dInfo42 }

/-- A session holding only the Discord identity. -/
def sessionOnlyDiscord : Session := { discordUserInfo := some dInfo42 }

/-- A session holding only the Reddit identity. -/
def sessionOnlyReddit : Session := { redditUserInfo := some uInfoAlice }

/-- A fresh session with no identities and no stored state. -/
def sessionEmpty : Session := {}

/-- Database behaviour: the lookup faults. -/
def dbFindFault : DbBehavior :=
  { findOneResult := Except.error (), insertOneResult := Except.ok () }

/-- Database behaviour: no existing record, insert succeeds. -/
def dbEmptyOk : DbBehavior :=
  { findOneResult := Except.ok none, insertOneResult := Except.ok () }

/-- Database behaviour: a matching record exists. -/
def dbFound : DbBehavior :=
  { findOneResult := Except.ok (some { userID := "42", redditName := "alice" })
    insertOneResult := Except.ok () }

/-- Callback query whose state matches `sessionWithState`. -/
def queryOk : Query := { state := some "0.5", code := some "CODE" }

/-- Callback query carrying a provider error. -/
def queryProviderError : Query :=
  { error := some "access_denied", state := some "0.5", code := some "CODE" }

/-- Callback query with no parameters at all. -/
def queryEmpty : Query := {}

/-- Session carrying the stored anti-CSRF state `"0.5"`. -/
def sessionWithState : Session := { redditState := some "0.5" }

/-- A successful token-exchange reply. -/
def tokenRespOk : WireTokenResponse :=
  { status := 200, access_token := "AT", refresh_token := "RT",
    token_type := "bearer", scope := "identity", expires_in := 3600 }

/-- The token set `tokenRespOk` maps to. -/
def tokenSetOk : TokenSet :=
  { accessToken := "AT", refreshToken := "RT", tokenType := "bearer",
    scope := "identity", expiresIn := 3600 }

/-- A token-exchange reply with a 404 status. -/
def tokenResp404 : WireTokenResponse := { status := 404 }

/-- A token-exchange reply with HTTP 200 whose body has an `error` field
holding the empty string (falsy in JS). -/
def tokenRespEmptyError : WireTokenResponse :=
  { status := 200, error := some "", access_token := "AT" }

/-- A profile reply with a 500 status. -/
def meRespFail : WireMeResponse := { status := 500 }

/-- A successful profile reply. -/
def meRespOk : WireMeResponse := { status := 200, name := "alice", created_utc := 5 }

/-! ### Theorems about the `POST /` verification handler -/

/-- Claim C1: for every POST /verify request in which both identities are
present in the session and the storage lookup or insert faults, the
committed response has status 500 (not 201) with the generic error body.
The source's missing `return` in the `catch` block does not change this:
the trailing `writeHead(201)` throws after headers are sent. -/
theorem verify_storage_fault_responds_500 (session : Session) (db : DbBehavior)
    (r : UserInfo) (d : DiscordUserInfo)
    (hr : session.redditUserInfo = some r) (hd : session.discordUserInfo = some d)
    (hf : db.findOneResult = Except.error () ∨
          (db.findOneResult = Except.ok none ∧ db.insertOneResult = Except.error ())) :
    (postVerify session db).res.status = some 500 ∧
    (postVerify session db).res.status ≠ some 201 ∧
    (postVerify session db).res.body =
      some "An unexpected error occured. Get in touch with a bot developer." := by
  obtain ⟨rs, rat, rrt, rexp, rui, dui⟩ := session
  obtain ⟨f, ins⟩ := db
  have hr2 : rui = some r := hr
  have hd2 : dui = some d := hd
  subst hr2 hd2
  rcases hf with hf | ⟨hf, hi⟩
  · have hf2 : f = Except.error () := hf
    subst hf2
    exact ⟨rfl, (by decide : (some 500 : Option Nat) ≠ some 201), rfl⟩
  · have hf2 : f = Except.ok none := hf
    have hi2 : ins = Except.error () := hi
    subst hf2 hi2
    exact ⟨rfl, (by decide : (some 500 : Option Nat) ≠ some 201), rfl⟩

/-- Claim C1, witness: a concrete run with a faulting lookup. -/
theorem verify_storage_fault_responds_500_witness :
    (postVerify sessionBoth dbFindFault).res.status = some 500 ∧
    (postVerify sessionBoth dbFindFault).res.status ≠ some 201 ∧
    (postVerify sessionBoth dbFindFault).res.body =
      some "An unexpected error occured. Get in touch with a bot developer." :=
  verify_storage_fault_responds_500 sessionBoth dbFindFault uInfoAlice dInfo42
    rfl rfl (Or.inl rfl)

/-- Claim C5: with both identities in the session, an existing
`(userID, redditName)` record yields a 201 with no insert, and an absent
record yields exactly one `insertOne` of the pair and a 201. -/
theorem verify_link_idempotent_insert (session : Session) (db : DbBehavior)
    (r : UserInfo) (d : DiscordUserInfo)
    (hr : session.redditUserInfo = some r) (hd : session.discordUserInfo = some d) :
    (∀ rec, db.findOneResult = Except.ok (some rec) →
       (postVerify session db).res.status = some 201 ∧
       (postVerify session db).ops = [DbOp.findOne d.id r.name])
    ∧ (db.findOneResult = Except.ok none →
       (postVerify session db).ops = [DbOp.findOne d.id r.name, DbOp.insertOne d.id r.name]
       ∧ (db.insertOneResult = Except.ok () →
            (postVerify session db).res.status = some 201)) := by
  obtain ⟨rs, rat, rrt, rexp, rui, dui⟩ := session
  obtain ⟨f, ins⟩ := db
  have hr2 : rui = some r := hr
  have hd2 : dui = some d := hd
  subst hr2 hd2
  constructor
  · intro rec hrec
    have hf2 : f = Except.ok (some rec) := hrec
    subst hf2
    exact ⟨rfl, rfl⟩
  · intro hnone
    have hf2 : f = Except.ok none := hnone
    subst hf2
    refine ⟨?_, ?_⟩
    · cases ins with
      | ok u => exact rfl
      | error e => exact rfl
    · intro hins
      have hi2 : ins = Except.ok () := hins
      subst hi2
      exact rfl

/-- Claim C5, witness: the already-linked run and the fresh-link run of
the spec example (`{id: "42"}`, `{name: "alice"}`). -/
theorem verify_link_idempotent_insert_witness :
    ((postVerify sessionBoth dbFound).res.status = some 201 ∧
     (postVerify sessionBoth dbFound).ops = [DbOp.findOne "42" "alice"]) ∧
    ((postVerify sessionBoth dbEmptyOk).ops
        = [DbOp.findOne "42" "alice", DbOp.insertOne "42" "alice"] ∧
     (postVerify sessionBoth dbEmptyOk).res.status = some 201) := by
  have h1 := (verify_link_idempotent_insert sessionBoth dbFound uInfoAlice dInfo42
    rfl rfl).1 { userID := "42", redditName := "alice" } rfl
  have h2 := (verify_link_idempotent_insert sessionBoth dbEmptyOk uInfoAlice dInfo42
    rfl rfl).2 rfl
  exact ⟨h1, h2.1, h2.2 rfl⟩

/-- Claim C6: a session with only a Discord identity gets a 401 naming
Reddit; one with only a Reddit identity gets a 401 naming Discord; in
both cases no storage call is made. -/
theorem verify_missing_identity_401 (session : Session) (db : DbBehavior) :
    (session.redditUserInfo = none →
       (postVerify session db).res.status = some 401 ∧
       (postVerify session db).res.body = some "Not logged in with Reddit" ∧
       (postVerify session db).ops = [])
    ∧ (∀ r, session.redditUserInfo = some r → session.discordUserInfo = none →
       (postVerify session db).res.status = some 401 ∧
       (postVerify session db).res.body = some "Not logged in with Discord" ∧
       (postVerify session db).ops = []) := by
  obtain ⟨rs, rat, rrt, rexp, rui, dui⟩ := session
  constructor
  · intro hr
    have hr2 : rui = none := hr
    subst hr2
    exact ⟨rfl, rfl, rfl⟩
  · intro r hr hd
    have hd2 : dui = none := hd
    subst hd2
    have hr2 : rui = some r := hr
    subst hr2
    exact ⟨rfl, rfl, rfl⟩

/-- Claim C6, witness: concrete runs with each identity missing. -/
theorem verify_missing_identity_401_witness :
    ((postVerify sessionOnlyDiscord dbEmptyOk).res.status = some 401 ∧
     (postVerify sessionOnlyDiscord dbEmptyOk).res.body = some "Not logged in with Reddit" ∧
     (postVerify sessionOnlyDiscord dbEmptyOk).ops = []) ∧
    ((postVerify sessionOnlyReddit dbEmptyOk).res.status = some 401 ∧
     (postVerify sessionOnlyReddit dbEmptyOk).res.body = some "Not logged in with Discord" ∧
     (postVerify sessionOnlyReddit dbEmptyOk).ops = []) :=
  ⟨(verify_missing_identity_401 sessionOnlyDiscord dbEmptyOk).1 rfl,
   (verify_missing_identity_401 sessionOnlyReddit dbEmptyOk).2 uInfoAlice rfl rfl⟩

/-- Claim C10: with neither identity in the session, the 401 names
Reddit — the Reddit check runs first. -/
theorem verify_both_missing_names_reddit (session : Session) (db : DbBehavior)
    (hr : session.redditUserInfo = none) (hd : session.discordUserInfo = none) :
    (postVerify session db).res.status = some 401 ∧
    (postVerify session db).res.body = some "Not logged in with Reddit" ∧
    (postVerify session db).ops = [] := by
  obtain ⟨rs, rat, rrt, rexp, rui, dui⟩ := session
  have hr2 : rui = none := hr
  subst hr2
  exact ⟨rfl, rfl, rfl⟩

/-- Claim C10, witness: the empty session. -/
theorem verify_both_missing_names_reddit_witness :
    (postVerify sessionEmpty dbEmptyOk).res.status = some 401 ∧
    (postVerify sessionEmpty dbEmptyOk).res.body = some "Not logged in with Reddit" ∧
    (postVerify sessionEmpty dbEmptyOk).ops = [] :=
  verify_both_missing_names_reddit sessionEmpty dbEmptyOk rfl rfl

/-! ### Theorems about the `GET /callback` handler -/

/-- Claim C3: a callback whose query carries a truthy `error`, or whose
`state` differs from the stored one, makes no external call at all — in
particular it never calls the token exchange — and ends with the generic
`uh-oh` body, not a redirect. -/
theorem callback_error_or_state_mismatch_no_exchange
    (query : Query) (session : Session)
    (tokenResp : WireTokenResponse) (meResp : WireMeResponse) (now : Nat)
    (h : truthy query.error = true ∨ query.state ≠ session.redditState) :
    (getCallback query session tokenResp meResp now).response = CbResponse.plainEnd "uh-oh"
    ∧ (getCallback query session tokenResp meResp now).events = []
    ∧ ∀ c, CallbackEvent.tokenExchange c
        ∉ (getCallback query session tokenResp meResp now).events := by
  rcases h with h | h
  · simp [getCallback, h]
  · by_cases he : truthy query.error
    · simp [getCallback, he]
    · simp [getCallback, he, h]

/-- Claim C3, witness: a callback carrying `error=access_denied`. -/
theorem callback_error_or_state_mismatch_no_exchange_witness :
    (getCallback queryProviderError sessionWithState tokenRespOk meRespOk 1000).response
      = CbResponse.plainEnd "uh-oh"
    ∧ (getCallback queryProviderError sessionWithState tokenRespOk meRespOk 1000).events
      = [] :=
  ⟨(callback_error_or_state_mismatch_no_exchange queryProviderError sessionWithState
      tokenRespOk meRespOk 1000 (Or.inl rfl)).1,
   (callback_error_or_state_mismatch_no_exchange queryProviderError sessionWithState
      tokenRespOk meRespOk 1000 (Or.inl rfl)).2.1⟩

/-- Claim C2, counterexample: a callback whose profile fetch fails does
end with the generic error body, but the session is NOT unchanged — the
access token, refresh token and expiry were already written before the
profile fetch. -/
theorem profile_fetch_failure_session_changed_cex :
    (getCallback queryOk sessionWithState tokenRespOk meRespFail 1000).response
      = CbResponse.plainEnd
          "Error fetching your account details. Please try again. Contact a developer if the error persists."
    ∧ fetchRedditUserInfo meRespFail = Except.error ()
    ∧ sessionWithState.redditAccessToken = none
    ∧ (getCallback queryOk sessionWithState tokenRespOk meRespFail 1000).session.redditAccessToken
      = some "AT"
    ∧ (getCallback queryOk sessionWithState tokenRespOk meRespFail 1000).session
      ≠ sessionWithState := by
  refine ⟨rfl, rfl, rfl, rfl, ?_⟩
  decide

/-- Claim C2 (amended): on profile-fetch failure the flow terminates with
the generic error body and no profile is written, but the tokens and the
absolute expiry are already in the session, having been written before
the profile fetch. -/
theorem profile_fetch_failure_error_with_tokens_written
    (query : Query) (session : Session)
    (tokenResp : WireTokenResponse) (meResp : WireMeResponse) (now : Nat) (ts : TokenSet)
    (he : truthy query.error = false)
    (hs : query.state = session.redditState)
    (ht : fetchRedditTokens tokenResp = Except.ok ts)
    (hm : fetchRedditUserInfo meResp = Except.error ()) :
    (getCallback query session tokenResp meResp now).response
      = CbResponse.plainEnd
          "Error fetching your account details. Please try again. Contact a developer if the error persists."
    ∧ (getCallback query session tokenResp meResp now).session.redditUserInfo
        = session.redditUserInfo
    ∧ (getCallback query session tokenResp meResp now).session.redditAccessToken
        = some ts.accessToken
    ∧ (getCallback query session tokenResp meResp now).session.redditRefreshToken
        = some ts.refreshToken
    ∧ (getCallback query session tokenResp meResp now).session.redditTokenExpiresAt
        = some (now + ts.expiresIn * 1000) := by
  simp [getCallback, he, hs, ht, hm]

/-- Claim C2 (amended), witness: a concrete run whose profile fetch
returns a 500. -/
theorem profile_fetch_failure_error_with_tokens_written_witness :
    (getCallback queryOk sessionWithState tokenRespOk meRespFail 1000).response
      = CbResponse.plainEnd
          "Error fetching your account details. Please try again. Contact a developer if the error persists."
    ∧ (getCallback queryOk sessionWithState tokenRespOk meRespFail 1000).session.redditUserInfo
        = sessionWithState.redditUserInfo
    ∧ (getCallback queryOk sessionWithState tokenRespOk meRespFail 1000).session.redditAccessToken
        = some "AT"
    ∧ (getCallback queryOk sessionWithState tokenRespOk meRespFail 1000).session.redditRefreshToken
        = some "RT"
    ∧ (getCallback queryOk sessionWithState tokenRespOk meRespFail 1000).session.redditTokenExpiresAt
        = some (1000 + 3600 * 1000) :=
  profile_fetch_failure_error_with_tokens_written queryOk sessionWithState
    tokenRespOk meRespFail 1000 tokenSetOk rfl rfl rfl rfl

/-- Claim C4, counterexample: a 200 reply whose body carries an `error`
field holding the empty string.  The body contains an error field, yet
the exchange succeeds — `if (data.error)` is a truthiness test, so the
claimed iff fails in its only-if-error direction. -/
theorem token_exchange_empty_error_field_succeeds_cex :
    tokenRespEmptyError.error ≠ none
    ∧ tokenRespEmptyError.status = 200
    ∧ fetchRedditTokens tokenRespEmptyError
        = Except.ok { accessToken := "AT", refreshToken := "", tokenType := "",
                      scope := "", expiresIn := 0 } :=
  ⟨by decide, rfl, rfl⟩

/-- Claim C4 (amended): the exchange fails iff the HTTP status is not 200
or the body carries a non-empty (truthy) `error` field; on success the
result is the `TokenSet` mapped field-for-field from the wire reply; and
on failure the callback leaves the session untouched. -/
theorem token_exchange_failure_iff_and_mapping
    (resp : WireTokenResponse) (query : Query) (session : Session)
    (meResp : WireMeResponse) (now : Nat)
    (he : truthy query.error = false)
    (hs : query.state = session.redditState) :
    ((∃ e, fetchRedditTokens resp = Except.error e)
        ↔ resp.status ≠ 200 ∨ truthy resp.error = true)
    ∧ (∀ ts, fetchRedditTokens resp = Except.ok ts →
         ts = { accessToken := resp.access_token, refreshToken := resp.refresh_token,
                tokenType := resp.token_type, scope := resp.scope,
                expiresIn := resp.expires_in })
    ∧ (∀ e, fetchRedditTokens resp = Except.error e →
         (getCallback query session resp meResp now).session = session) := by
  refine ⟨⟨?_, ?_⟩, ?_, ?_⟩
  · rintro ⟨e, hfe⟩
    by_cases h200 : resp.status = 200
    · by_cases herr : truthy resp.error
      · exact Or.inr herr
      · simp [fetchRedditTokens, h200, herr] at hfe
    · exact Or.inl h200
  · rintro (h | h)
    · exact ⟨TokenExchangeError.nonSuccessStatus resp.status,
        by simp [fetchRedditTokens, h]⟩
    · by_cases h200 : resp.status = 200
      · exact ⟨TokenExchangeError.bodyError (resp.error.getD ""),
          by simp [fetchRedditTokens, h200, h]⟩
      · exact ⟨TokenExchangeError.nonSuccessStatus resp.status,
          by simp [fetchRedditTokens, h200]⟩
  · intro ts hts
    by_cases h200 : resp.status = 200
    · by_cases herr : truthy resp.error
      · simp [fetchRedditTokens, h200, herr] at hts
      · simp [fetchRedditTokens, h200, herr] at hts
        exact hts.symm
    · simp [fetchRedditTokens, h200] at hts
  · intro e hfe
    simp [getCallback, he, hs, hfe]

/-- Claim C4 (amended), witness: a 404 reply fails the exchange and the
callback leaves the session as it was. -/
theorem token_exchange_failure_iff_and_mapping_witness :
    fetchRedditTokens tokenResp404
      = Except.error (TokenExchangeError.nonSuccessStatus 404)
    ∧ (getCallback queryOk sessionWithState tokenResp404 meRespOk 1000).session
      = sessionWithState :=
  ⟨rfl,
   (token_exchange_failure_iff_and_mapping tokenResp404 queryOk sessionWithState
      meRespOk 1000 rfl rfl).2.2 (TokenExchangeError.nonSuccessStatus 404) rfl⟩

/-- Claim C8: on a successful exchange the stored expiry is the absolute
timestamp `now + expiresIn` seconds (in ms), in particular
`now + 3600 * 1000` for an `expiresIn` of 3600. -/
theorem token_expiry_absolute_timestamp
    (query : Query) (session : Session)
    (tokenResp : WireTokenResponse) (meResp : WireMeResponse) (now : Nat) (ts : TokenSet)
    (he : truthy query.error = false)
    (hs : query.state = session.redditState)
    (ht : fetchRedditTokens tokenResp = Except.ok ts) :
    (getCallback query session tokenResp meResp now).session.redditTokenExpiresAt
        = some (now + ts.expiresIn * 1000)
    ∧ (ts.expiresIn = 3600 →
       (getCallback query session tokenResp meResp now).session.redditTokenExpiresAt
          = some (now + 3600 * 1000)) := by
  have key : (getCallback query session tokenResp meResp now).session.redditTokenExpiresAt
      = some (now + ts.expiresIn * 1000) := by
    cases hm : fetchRedditUserInfo meResp with
    | ok info => simp [getCallback, he, hs, ht, hm]
    | error e => simp [getCallback, he, hs, ht, hm]
  exact ⟨key, fun h3600 => by rw [key, h3600]⟩

/-- Claim C8, witness: `expiresIn = 3600` at clock 1000 ms stores
3601000 ms. -/
theorem token_expiry_absolute_timestamp_witness :
    (getCallback queryOk sessionWithState tokenRespOk meRespOk 1000).session.redditTokenExpiresAt
      = some (1000 + 3600 * 1000) :=
  (token_expiry_absolute_timestamp queryOk sessionWithState tokenRespOk meRespOk
    1000 tokenSetOk rfl rfl rfl).2 rfl

/-- Claim C9: when the query has no `error` and no `state` and the
session stores no `redditState`, the strict comparison
`undefined !== undefined` is false, so the check passes and the token
exchange is invoked with the request's (absent) code. -/
theorem callback_absent_state_passes_check
    (query : Query) (session : Session)
    (tokenResp : WireTokenResponse) (meResp : WireMeResponse) (now : Nat)
    (he : query.error = none) (hq : query.state = none) (hs : session.redditState = none) :
    query.state = session.redditState
    ∧ CallbackEvent.tokenExchange query.code
        ∈ (getCallback query session tokenResp meResp now).events := by
  have hmatch : query.state = session.redditState := by rw [hq, hs]
  refine ⟨hmatch, ?_⟩
  cases ht : fetchRedditTokens tokenResp with
  | error e => simp [getCallback, he, hmatch, ht, truthy]
  | ok ts =>
    cases hm : fetchRedditUserInfo meResp with
    | error e => simp [getCallback, he, hmatch, ht, hm, truthy]
    | ok info => simp [getCallback, he, hmatch, ht, hm, truthy]

/-- Claim C9, witness: the fully-empty query against the fresh session. -/
theorem callback_absent_state_passes_check_witness :
    queryEmpty.state = sessionEmpty.redditState
    ∧ CallbackEvent.tokenExchange none
        ∈ (getCallback queryEmpty sessionEmpty tokenRespOk meRespOk 1000).events :=
  callback_absent_state_passes_check queryEmpty sessionEmpty tokenRespOk meRespOk
    1000 rfl rfl rfl

/-! ### Theorems about the authorization URI -/

/-- Claim C7: `authURI` is a pure function that appends the URI-encoded
state to the fixed base, and its output contains the unchanged
`client_id`, `response_type`, `redirect_uri`, `scope` and `duration`
parameters together with the URI-encoded state. -/
theorem authURI_contains_params (clientID host state : String) :
    authURI clientID host state
      = redditAuthURIBase clientID host ++ "&state=" ++ encodeURIComponent state
    ∧ containsSubstr (authURI clientID host state) ("?client_id=" ++ clientID)
    ∧ containsSubstr (authURI clientID host state) "&response_type=code"
    ∧ containsSubstr (authURI clientID host state)
        ("&redirect_uri=" ++ encodeURIComponent (redditRedirectURI host))
    ∧ containsSubstr (authURI clientID host state) "&scope=identity"
    ∧ containsSubstr (authURI clientID host state) "&duration=permanent"
    ∧ containsSubstr (authURI clientID host state)
        ("&state=" ++ encodeURIComponent state) := by
  refine ⟨rfl, ?_, ?_, ?_, ?_, ?_, ?_⟩
  · exact ⟨"https://old.reddit.com/api/v1/authorize".data,
      ("&response_type=code&redirect_uri=" ++ encodeURIComponent (redditRedirectURI host)
        ++ "&scope=identity&duration=permanent&state=" ++ encodeURIComponent state).data,
      by simp [authURI, redditAuthURIBase, String.data_append, List.append_assoc]⟩
  · exact ⟨("https://old.reddit.com/api/v1/authorize?client_id=" ++ clientID).data,
      ("&redirect_uri=" ++ encodeURIComponent (redditRedirectURI host)
        ++ "&scope=identity&duration=permanent&state=" ++ encodeURIComponent state).data,
      by simp [authURI, redditAuthURIBase, String.data_append, List.append_assoc]⟩
  · exact ⟨("https://old.reddit.com/api/v1/authorize?client_id=" ++ clientID
        ++ "&response_type=code").data,
      ("&scope=identity&duration=permanent&state=" ++ encodeURIComponent state).data,
      by simp [authURI, redditAuthURIBase, String.data_append, List.append_assoc]⟩
  · exact ⟨("https://old.reddit.com/api/v1/authorize?client_id=" ++ clientID
        ++ "&response_type=code&redirect_uri="
        ++ encodeURIComponent (redditRedirectURI host)).data,
      ("&duration=permanent&state=" ++ encodeURIComponent state).data,
      by simp [authURI, redditAuthURIBase, String.data_append, List.append_assoc]⟩
  · exact ⟨("https://old.reddit.com/api/v1/authorize?client_id=" ++ clientID
        ++ "&response_type=code&redirect_uri="
        ++ encodeURIComponent (redditRedirectURI host)
        ++ "&scope=identity").data,
      ("&state=" ++ encodeURIComponent state).data,
      by simp [authURI, redditAuthURIBase, String.data_append, List.append_assoc]⟩
  · exact ⟨("https://old.reddit.com/api/v1/authorize?client_id=" ++ clientID
        ++ "&response_type=code&redirect_uri="
        ++ encodeURIComponent (redditRedirectURI host)
        ++ "&scope=identity&duration=permanent").data,
      ([] : List Char),
      by simp [authURI, redditAuthURIBase, String.data_append, List.append_assoc]⟩

end ModBot
